import Mathlib

/-!
Shallow embedding of the GasGuard backend reading-processing core
(backend-new controller: `processSensorReading`, `createAlert`,
`triggerVentilation`, `parseLimit`, `getReadings`, `getAlerts`), of the
old backend's ML client fallback (`getRiskPrediction`), and of the
spec-documented fusion rule of the ml-service.

JavaScript values relevant to validation are modelled explicitly: a gas
field can be `undefined`, a number (finite rational, NaN, or an
infinity), or a non-number. Database and collaborator effects are
modelled by explicit state passing: `SystemState` records the stored
readings, alerts, per-zone ventilation documents, the trace of
ventilation-actuator invocations, and the trace of audit (blockchain)
emissions. Collaborator failures (alert save, ventilation update,
blockchain post, reading save) are modelled by Boolean outcome flags.
-/

namespace GasGuard

/-- A JavaScript number: finite (modelled as a rational), NaN, or an infinity. -/
inductive JSNumber where
  | finite (q : ℚ)
  | nan
  | posInf
  | negInf
deriving DecidableEq, Repr

/-- A JavaScript value in a gas-concentration position of the request body:
`undefined` (field missing), a number, or some non-number value. -/
inductive JSValue where
  | undefined
  | number (n : JSNumber)
  | nonNumber
deriving DecidableEq, Repr

def JSValue.isUndefined : JSValue → Bool
  | .undefined => true
  | _ => false

/-- `isValidGasReading(value)`: `typeof value === 'number' && Number.isFinite(value) && value >= 0`. -/
def isValidGasReading : JSValue → Bool
  | .number (.finite q) => decide (0 ≤ q)
  | _ => false

/-- The four gas fields of `req.body.gases`. -/
structure GasesBody where
  methane : JSValue
  lpg : JSValue
  carbonMonoxide : JSValue
  hydrogenSulfide : JSValue
deriving DecidableEq, Repr

/-- `req.body` as far as validation reads it: `clientID` and `gases`.
`none` models an absent field. -/
structure RequestBody where
  clientID : Option String
  gases : Option GasesBody
deriving DecidableEq, Repr

/-- JavaScript truthiness of the `clientID` field: absent and the empty
string are falsy. -/
def truthyClientID : Option String → Bool
  | none => false
  | some s => !(s == "")

/-- `RISK_HIERARCHY` object of the controller. -/
def RISK_HIERARCHY : List (String × Nat) :=
  [("NORMAL", 0), ("LOW_ANOMALY", 1), ("UNUSUAL", 2),
   ("ALERT", 3), ("WARNING", 4), ("CRITICAL", 5)]

/-- `SEVERITY_MAP` object of the controller. -/
def SEVERITY_MAP : List (String × String) :=
  [("LOW_ANOMALY", "low"), ("UNUSUAL", "medium"), ("ALERT", "medium"),
   ("WARNING", "high"), ("CRITICAL", "critical")]

/-- `RISK_HIERARCHY[riskState] || 0`: an unknown label defaults to rank 0. -/
def riskLevelOf (s : String) : Nat :=
  (List.lookup s RISK_HIERARCHY).getD 0

/-- `SEVERITY_MAP[riskState] || 'medium'` (inside `createAlert`). -/
def severityFor (s : String) : String :=
  (List.lookup s SEVERITY_MAP).getD "medium"

/-- The fields of the ML service response the decision engine reads:
`riskState`, `confidence`, and the truthiness of `ppmClassification`. -/
structure MLPredictionData where
  riskState : String
  confidence : String
  ppmOk : Bool
deriving DecidableEq, Repr

/-- A `VentilationStatus` document as written by the controller. -/
structure VentilationStatus where
  isActive : Bool
  mode : String
  triggeredByRisk : String
deriving DecidableEq, Repr

/-- An `Alert` document, restricted to the fields the claims are about. -/
structure AlertRecord where
  clientID : String
  severity : String
  riskState : String
deriving DecidableEq, Repr

/-- A `SensorReading` document, restricted to the fields the claims are
about (identity, classification label, and the `actionsTaken` flags). -/
structure StoredReading where
  clientID : String
  riskState : String
  alertCreated : Bool
  ventilationTriggered : Bool
  blockchainLogged : Bool
deriving DecidableEq, Repr

/-- The observable system state: stored readings, stored alerts, the
per-zone ventilation documents, the trace of ventilation-actuator writes
(one entry per `findOneAndUpdate` call, recording zone and target mode),
and the trace of audit events posted to the blockchain service. -/
structure SystemState where
  readings : List StoredReading
  alerts : List AlertRecord
  vent : List (String × VentilationStatus)
  ventInvocations : List (String × String)
  auditEvents : List (String × String)
deriving DecidableEq, Repr

def emptyState : SystemState := ⟨[], [], [], [], []⟩

/-- `findOneAndUpdate({clientID}, {$set: ...}, {upsert: true})` on the
ventilation collection: replace the zone's document or insert one. -/
def upsertVent : List (String × VentilationStatus) → String → VentilationStatus →
    List (String × VentilationStatus)
  | [], k, v => [(k, v)]
  | (k₀, v₀) :: rest, k, v =>
      if k₀ == k then (k, v) :: rest else (k₀, v₀) :: upsertVent rest k v

/-- `triggerVentilation(clientID, riskState)`: mode is FORCED for
CRITICAL and AUTO otherwise; the zone's document is unconditionally
overwritten (upsert), and the actuator invocation is recorded. -/
def triggerVentilation (st : SystemState) (clientID riskState : String) :
    SystemState × VentilationStatus :=
  let mode := if riskState == "CRITICAL" then "FORCED" else "AUTO"
  let vs : VentilationStatus := ⟨true, mode, riskState⟩
  ({ st with
      vent := upsertVent st.vent clientID vs,
      ventInvocations := st.ventInvocations ++ [(clientID, mode)] }, vs)

/-- `createAlert(clientID, mlPrediction, ...)`, restricted to the fields
`AlertRecord` tracks; severity is `SEVERITY_MAP[riskState] || 'medium'`. -/
def createAlert (clientID : String) (ml : MLPredictionData) : AlertRecord :=
  ⟨clientID, severityFor ml.riskState, ml.riskState⟩

/-- Outcomes of the external collaborators for one request: the ML
service response (`none` = unreachable or timed out), and success flags
for the alert save, the ventilation update, the blockchain post, and the
reading save. -/
structure Collaborators where
  ml : Option MLPredictionData
  alertSaveOk : Bool
  ventUpdateOk : Bool
  blockchainOk : Bool
  readingSaveOk : Bool
deriving DecidableEq, Repr

/-- All collaborators succeed and the ML service answers `ml`. -/
def allOk (ml : MLPredictionData) : Collaborators := ⟨some ml, true, true, true, true⟩

/-- The `actions` object of the 200 response. -/
structure ActionsOut where
  alertCreated : Bool
  ventilationTriggered : Bool
  ventilationMode : Option String
  blockchainLogged : Bool
deriving DecidableEq, Repr

/-- The HTTP responses `processSensorReading` can produce: 200 with the
actions structure, 400 with a message, 503 (ML service unavailable), or
500 (an unhandled throw reached the outer catch). -/
inductive HttpResponse where
  | ok (actions : ActionsOut)
  | badRequest (msg : String)
  | unavailable
  | serverError
deriving DecidableEq, Repr

/-- Steps 2–5 of `processSensorReading` (after validation and the ML
call): decision engine, blockchain logging, reading save, response.
A failing `alert.save()` or ventilation `findOneAndUpdate` throws to the
outer catch (500) with everything later skipped; a failing blockchain
post is caught and swallowed (flag stays false). -/
def runDecision (blockchainEnabled : Bool) (col : Collaborators) (st : SystemState)
    (clientID : String) (ml : MLPredictionData) : HttpResponse × SystemState :=
  let riskLevel := riskLevelOf ml.riskState
  if 2 ≤ riskLevel ∧ col.alertSaveOk = false then (.serverError, st)
  else
    let alertCreated := decide (2 ≤ riskLevel)
    let st₁ := if 2 ≤ riskLevel then
        { st with alerts := st.alerts ++ [createAlert clientID ml] } else st
    if 4 ≤ riskLevel ∧ col.ventUpdateOk = false then (.serverError, st₁)
    else
      let p := if 4 ≤ riskLevel then
          let tv := triggerVentilation st₁ clientID ml.riskState
          (tv.1, some tv.2.mode)
        else (st₁, none)
      let ventilationTriggered := decide (4 ≤ riskLevel)
      let auditAttempt := blockchainEnabled && decide (4 ≤ riskLevel)
      let st₃ := if auditAttempt then
          { p.1 with auditEvents := p.1.auditEvents ++ [(clientID, ml.riskState)] }
        else p.1
      let blockchainLogged := auditAttempt && col.blockchainOk
      if col.readingSaveOk = false then (.serverError, st₃)
      else
        (.ok ⟨alertCreated, ventilationTriggered, p.2, blockchainLogged⟩,
         { st₃ with readings := st₃.readings ++
            [⟨clientID, ml.riskState, alertCreated, ventilationTriggered, blockchainLogged⟩] })

/-- `processSensorReading(req, res)`: field validation, gas validation,
ML service call (503 on failure or incomplete response), then the
decision steps of `runDecision`. -/
def processSensorReading (blockchainEnabled : Bool) (col : Collaborators)
    (st : SystemState) (body : RequestBody) : HttpResponse × SystemState :=
  match body.gases with
  | none => (.badRequest "Missing required fields: clientID and gases", st)
  | some g =>
    if truthyClientID body.clientID = false then
      (.badRequest "Missing required fields: clientID and gases", st)
    else if g.methane.isUndefined || g.lpg.isUndefined ||
        g.carbonMonoxide.isUndefined || g.hydrogenSulfide.isUndefined then
      (.badRequest "All gas readings required: methane, lpg, carbonMonoxide, hydrogenSulfide", st)
    else if !isValidGasReading g.methane || !isValidGasReading g.lpg ||
        !isValidGasReading g.carbonMonoxide || !isValidGasReading g.hydrogenSulfide then
      (.badRequest "Gas readings must be non-negative finite numbers", st)
    else
      match col.ml with
      | none => (.unavailable, st)
      | some ml =>
        if ml.riskState == "" || !ml.ppmOk then (.unavailable, st)
        else runDecision blockchainEnabled col st (body.clientID.getD "") ml

/-- A well-formed request body with all four gas concentrations finite. -/
def mkBody (cid : String) (m l c h : ℚ) : RequestBody :=
  ⟨some cid, some ⟨.number (.finite m), .number (.finite l),
      .number (.finite c), .number (.finite h)⟩⟩

/-- Current ventilation mode of a zone (schema default OFF when no
document exists). -/
def ventModeOf (st : SystemState) (clientID : String) : String :=
  match List.lookup clientID st.vent with
  | some v => v.mode
  | none => "OFF"

/-- `parseLimit(value)` of the controller, with the input given as the
result of JavaScript `parseInt(value)` (`none` = NaN, i.e. a missing or
non-numeric string): `parseInt(value) || 50`, then
`Math.min(Math.max(parsed, 1), MAX_QUERY_LIMIT)` with `MAX_QUERY_LIMIT = 500`. -/
def parseLimit (v : Option Int) : Int :=
  let parsed : Int := match v with
    | none => 50
    | some n => if n = 0 then 50 else n
  min (max parsed 1) 500

/-- `getReadings`: query limited by `parseLimit(limit)` documents. -/
def getReadingsQuery (docs : List StoredReading) (limit : Option Int) : List StoredReading :=
  docs.take (parseLimit limit).toNat

/-- `getAlerts`: query limited by `parseLimit(limit)` documents. -/
def getAlertsQuery (docs : List AlertRecord) (limit : Option Int) : List AlertRecord :=
  docs.take (parseLimit limit).toNat

/-- The six-value ordered risk enumeration. -/
inductive RiskLevel where
  | NORMAL
  | LOW_ANOMALY
  | UNUSUAL
  | ALERT
  | WARNING
  | CRITICAL
deriving DecidableEq, Repr

/-- Numeric rank of a risk level. -/
def RiskLevel.rank : RiskLevel → Nat
  | .NORMAL => 0
  | .LOW_ANOMALY => 1
  | .UNUSUAL => 2
  | .ALERT => 3
  | .WARNING => 4
  | .CRITICAL => 5

/-- String label of a risk level, as used throughout the JavaScript code. -/
def RiskLevel.label : RiskLevel → String
  | .NORMAL => "NORMAL"
  | .LOW_ANOMALY => "LOW_ANOMALY"
  | .UNUSUAL => "UNUSUAL"
  | .ALERT => "ALERT"
  | .WARNING => "WARNING"
  | .CRITICAL => "CRITICAL"

/-- Output of the fusion engine: fused risk level, confidence label,
and scalar leak probability. -/
structure FusedClassification where
  riskLevel : RiskLevel
  confidence : String
  leakProbability : ℚ
deriving DecidableEq, Repr

/-- Modelled from the spec: the ml-service fusion engine (`app.py`) is not
under src/ (only its README and the architecture document are). Per
spec §4.3 and the in-repo docs: fused RiskLevel = max of the two input
ranks (threshold-only when the anomaly signal is Unavailable), confidence
from the absolute rank distance (0 high, 1 medium, otherwise low; forced
low when the anomaly signal is Unavailable), leak probability = rank / 5. -/
def Fuse (t : RiskLevel) (a : Option RiskLevel) : FusedClassification :=
  match a with
  | none => ⟨t, "low", (t.rank : ℚ) / 5⟩
  | some a₀ =>
    let r := if a₀.rank ≤ t.rank then t else a₀
    let d := ((t.rank : ℤ) - (a₀.rank : ℤ)).natAbs
    ⟨r, if d = 0 then "high" else if d = 1 then "medium" else "low", (r.rank : ℚ) / 5⟩

/-- The old backend ML client result fields. -/
structure MLServiceResult where
  riskState : String
  notify : Bool
  alarm : Bool
  ventilation : Bool
deriving DecidableEq, Repr

/-- `getRiskPrediction(gasValues)` of `backend/services/mlService.js`:
returns the service response when reachable, and the safe fallback
object instead of throwing when it is not. -/
def getRiskPrediction (response : Option MLServiceResult) : MLServiceResult :=
  match response with
  | some r => r
  | none => ⟨"UNKNOWN", false, false, false⟩


/-! ### Helper lemmas -/

theorem label_ne_empty (lv : RiskLevel) : lv.label ≠ "" := by
  cases lv <;> simp [RiskLevel.label]

theorem processSensorReading_valid (be : Bool) (col : Collaborators) (st : SystemState)
    (cid : String) (hcid : cid ≠ "") (m l c h : ℚ)
    (hm : 0 ≤ m) (hl : 0 ≤ l) (hc : 0 ≤ c) (hh : 0 ≤ h)
    (ml : MLPredictionData) (hml : col.ml = some ml) (hrs : ml.riskState ≠ "")
    (hppm : ml.ppmOk = true) :
    processSensorReading be col st (mkBody cid m l c h) = runDecision be col st cid ml := by
  simp [processSensorReading, mkBody, truthyClientID, isValidGasReading, JSValue.isUndefined,
        hm, hl, hc, hh, hml, hppm, hcid, hrs]

theorem riskLevelOf_NORMAL : riskLevelOf "NORMAL" = 0 := by decide

theorem riskLevelOf_LOW_ANOMALY : riskLevelOf "LOW_ANOMALY" = 1 := by decide

theorem riskLevelOf_UNUSUAL : riskLevelOf "UNUSUAL" = 2 := by decide

theorem riskLevelOf_ALERT : riskLevelOf "ALERT" = 3 := by decide

theorem riskLevelOf_WARNING : riskLevelOf "WARNING" = 4 := by decide

theorem riskLevelOf_CRITICAL : riskLevelOf "CRITICAL" = 5 := by decide

theorem severityFor_NORMAL : severityFor "NORMAL" = "medium" := by decide

theorem severityFor_LOW_ANOMALY : severityFor "LOW_ANOMALY" = "low" := by decide

theorem severityFor_UNUSUAL : severityFor "UNUSUAL" = "medium" := by decide

theorem severityFor_ALERT : severityFor "ALERT" = "medium" := by decide

theorem severityFor_WARNING : severityFor "WARNING" = "high" := by decide

theorem severityFor_CRITICAL : severityFor "CRITICAL" = "critical" := by decide

theorem lookup_upsertVent (l : List (String × VentilationStatus)) (k : String)
    (v : VentilationStatus) : List.lookup k (upsertVent l k v) = some v := by
  induction l with
  | nil => simp [upsertVent, List.lookup]
  | cons p rest ih =>
    obtain ⟨k₀, v₀⟩ := p
    by_cases hk : k₀ = k
    · subst hk; simp [upsertVent, List.lookup]
    · have hkk : (k == k₀) = false := by simp [Ne.symm hk]
      simp [upsertVent, List.lookup, hk, hkk, ih]

/-- Severity as stated by the claims (medium for UNUSUAL and ALERT, high
for WARNING, critical for CRITICAL; levels below UNUSUAL never produce
an alert, so their value is immaterial). -/
def severitySpec : RiskLevel → String
  | .UNUSUAL => "medium"
  | .ALERT => "medium"
  | .WARNING => "high"
  | .CRITICAL => "critical"
  | _ => "low"

theorem parseLimit_bounds (v : Option ℤ) : 1 ≤ parseLimit v ∧ parseLimit v ≤ 500 := by
  rcases v with _ | k
  · decide
  · by_cases hk : k = 0
    · simp [parseLimit, hk]
    · constructor <;> · simp only [parseLimit]; omega

theorem getReadingsQuery_le (docs : List StoredReading) (v : Option ℤ) :
    (getReadingsQuery docs v).length ≤ 500 := by
  have hb := (parseLimit_bounds v).2
  calc (getReadingsQuery docs v).length ≤ (parseLimit v).toNat := by
        simp [getReadingsQuery]
    _ ≤ 500 := by omega

theorem getAlertsQuery_le (als : List AlertRecord) (v : Option ℤ) :
    (getAlertsQuery als v).length ≤ 500 := by
  have hb := (parseLimit_bounds v).2
  calc (getAlertsQuery als v).length ≤ (parseLimit v).toNat := by
        simp [getAlertsQuery]
    _ ≤ 500 := by omega

/-! ### Claims -/

/-- C1: the claim says that once a zone's ventilation mode is FORCED, the
core never transitions it back to AUTO or OFF. The code violates this:
on a zone whose ventilation is FORCED, processing a WARNING reading
unconditionally overwrites the mode with AUTO. -/
theorem forced_downgraded_by_warning_reading :
    ventModeOf { emptyState with vent := [("zoneA", ⟨true, "FORCED", "CRITICAL"⟩)] } "zoneA"
        = "FORCED" ∧
    ventModeOf (processSensorReading false (allOk ⟨"WARNING", "high", true⟩)
        { emptyState with vent := [("zoneA", ⟨true, "FORCED", "CRITICAL"⟩)] }
        (mkBody "zoneA" 1 1 1 1)).2 "zoneA" = "AUTO" := by decide

/-- C2: a reading whose body is missing the zone identifier, missing any
of the four gas concentrations, or carrying a concentration that is not
a finite non-negative number, is rejected with HTTP 400 and no state is
mutated. -/
theorem invalid_input_rejected_without_mutation (be : Bool) (col : Collaborators)
    (st : SystemState) (body : RequestBody)
    (hbad : body.clientID = none ∨ body.gases = none ∨
      ∃ g, body.gases = some g ∧
        (g.methane.isUndefined = true ∨ g.lpg.isUndefined = true ∨
         g.carbonMonoxide.isUndefined = true ∨ g.hydrogenSulfide.isUndefined = true ∨
         isValidGasReading g.methane = false ∨ isValidGasReading g.lpg = false ∨
         isValidGasReading g.carbonMonoxide = false ∨
         isValidGasReading g.hydrogenSulfide = false)) :
    ∃ msg, processSensorReading be col st body = (.badRequest msg, st) := by
  rcases hbad with h | h | ⟨g, hg, hbad⟩
  · cases hgas : body.gases with
    | none => exact ⟨"Missing required fields: clientID and gases",
        by simp [processSensorReading, hgas]⟩
    | some g => exact ⟨"Missing required fields: clientID and gases",
        by simp [processSensorReading, hgas, truthyClientID, h]⟩
  · exact ⟨"Missing required fields: clientID and gases", by simp [processSensorReading, h]⟩
  · cases htr : truthyClientID body.clientID with
    | false => exact ⟨"Missing required fields: clientID and gases",
        by simp [processSensorReading, hg, htr]⟩
    | true =>
      cases hu : (g.methane.isUndefined || g.lpg.isUndefined ||
          g.carbonMonoxide.isUndefined || g.hydrogenSulfide.isUndefined) with
      | true => exact ⟨"All gas readings required: methane, lpg, carbonMonoxide, hydrogenSulfide",
          by simp [processSensorReading, hg, htr, hu]⟩
      | false =>
        rcases hbad with h | h | h | h | h | h | h | h
        · simp [h] at hu
        · simp [h] at hu
        · simp [h] at hu
        · simp [h] at hu
        · exact ⟨"Gas readings must be non-negative finite numbers",
            by simp [processSensorReading, hg, htr, hu, h]⟩
        · exact ⟨"Gas readings must be non-negative finite numbers",
            by simp [processSensorReading, hg, htr, hu, h]⟩
        · exact ⟨"Gas readings must be non-negative finite numbers",
            by simp [processSensorReading, hg, htr, hu, h]⟩
        · exact ⟨"Gas readings must be non-negative finite numbers",
            by simp [processSensorReading, hg, htr, hu, h]⟩

theorem invalid_input_rejected_witness :
    ∃ msg, processSensorReading false ⟨none, true, true, true, true⟩ emptyState
        ⟨none, none⟩ = (.badRequest msg, emptyState) :=
  invalid_input_rejected_without_mutation false ⟨none, true, true, true, true⟩ emptyState
    ⟨none, none⟩ (Or.inl rfl)

/-- C3 counterexample: the claim says an unknown RiskLevel label makes
processing fail closed, rejecting the reading. The code instead accepts
the reading: it returns 200 and stores the reading under the unknown
label. -/
theorem unknown_label_not_rejected :
    processSensorReading false (allOk ⟨"UNKNOWN", "low", true⟩) emptyState
        (mkBody "zoneA" 1 1 1 1)
      = (.ok ⟨false, false, none, false⟩,
         { emptyState with readings := [⟨"zoneA", "UNKNOWN", false, false, false⟩] }) := by
  decide

/-- C3 amended: an unknown RiskLevel label is treated as rank 0 (NORMAL):
the reading is accepted and stored under that label, the response is 200,
and no alert, ventilation, or audit action is derived from it. -/
theorem unknown_label_treated_as_normal (be : Bool) (col : Collaborators) (st : SystemState)
    (cid : String) (hcid : cid ≠ "") (m l c h : ℚ)
    (hm : 0 ≤ m) (hl : 0 ≤ l) (hc : 0 ≤ c) (hh : 0 ≤ h)
    (ml : MLPredictionData) (hml : col.ml = some ml) (hrs : ml.riskState ≠ "")
    (hppm : ml.ppmOk = true)
    (hunknown : List.lookup ml.riskState RISK_HIERARCHY = none)
    (hsave : col.readingSaveOk = true) :
    processSensorReading be col st (mkBody cid m l c h)
      = (.ok ⟨false, false, none, false⟩,
         { st with readings := st.readings ++ [⟨cid, ml.riskState, false, false, false⟩] }) := by
  rw [processSensorReading_valid be col st cid hcid m l c h hm hl hc hh ml hml hrs hppm]
  simp [runDecision, riskLevelOf, hunknown, hsave]

theorem unknown_label_treated_as_normal_witness :
    processSensorReading false (allOk ⟨"UNKNOWN", "low", true⟩) emptyState
        (mkBody "zoneA" 1 1 1 1)
      = (.ok ⟨false, false, none, false⟩,
         { emptyState with readings :=
            emptyState.readings ++ [⟨"zoneA", "UNKNOWN", false, false, false⟩] }) :=
  unknown_label_treated_as_normal false (allOk ⟨"UNKNOWN", "low", true⟩) emptyState
    "zoneA" (by decide) 1 1 1 1 (by decide) (by decide) (by decide) (by decide)
    ⟨"UNKNOWN", "low", true⟩ rfl (by decide) rfl (by decide) rfl

/-- C4: when the anomaly predictor backend is unavailable, fusion degrades
to the Threshold Classifier's output alone with confidence forced to low,
and unavailability is not a hard failure: the old backend ML client
likewise returns its safe fallback object instead of throwing. -/
theorem predictor_unavailable_degrades (t : RiskLevel) :
    (Fuse t none).riskLevel = t ∧ (Fuse t none).confidence = "low" ∧
    getRiskPrediction none = ⟨"UNKNOWN", false, false, false⟩ :=
  ⟨rfl, rfl, rfl⟩

/-- C5: a successfully processed reading creates exactly one alert if and
only if the fused risk rank is at least UNUSUAL (2), with severity medium
for UNUSUAL and ALERT, high for WARNING, critical for CRITICAL; NORMAL
and LOW_ANOMALY create none. -/
theorem alert_iff_unusual_or_above (be : Bool) (st : SystemState) (cid : String)
    (hcid : cid ≠ "") (m l c h : ℚ)
    (hm : 0 ≤ m) (hl : 0 ≤ l) (hc : 0 ≤ c) (hh : 0 ≤ h)
    (lv : RiskLevel) (conf : String) :
    (processSensorReading be (allOk ⟨lv.label, conf, true⟩) st (mkBody cid m l c h)).2.alerts
      = st.alerts ++ (if 2 ≤ lv.rank then [⟨cid, severitySpec lv, lv.label⟩] else []) := by
  rw [processSensorReading_valid be _ st cid hcid m l c h hm hl hc hh
      ⟨lv.label, conf, true⟩ rfl (label_ne_empty lv) rfl]
  cases lv <;> cases be <;>
    simp [runDecision, createAlert, triggerVentilation, severitySpec, allOk,
      RiskLevel.label, RiskLevel.rank,
      riskLevelOf_NORMAL, riskLevelOf_LOW_ANOMALY, riskLevelOf_UNUSUAL,
      riskLevelOf_ALERT, riskLevelOf_WARNING, riskLevelOf_CRITICAL,
      severityFor_NORMAL, severityFor_LOW_ANOMALY, severityFor_UNUSUAL,
      severityFor_ALERT, severityFor_WARNING, severityFor_CRITICAL]

theorem alert_iff_unusual_or_above_witness :
    (processSensorReading false (allOk ⟨RiskLevel.CRITICAL.label, "high", true⟩) emptyState
        (mkBody "zoneA" 1 1 1 1)).2.alerts
      = emptyState.alerts ++ (if 2 ≤ RiskLevel.CRITICAL.rank then
          [⟨"zoneA", severitySpec RiskLevel.CRITICAL, RiskLevel.CRITICAL.label⟩] else []) :=
  alert_iff_unusual_or_above false emptyState "zoneA" (by decide) 1 1 1 1
    (by decide) (by decide) (by decide) (by decide) RiskLevel.CRITICAL "high"

/-- C6 counterexample: the claim says the ventilation actuator is never
invoked when the zone is already in the target mode. The code invokes the
actuator write on every WARNING-or-above reading: on a zone already
FORCED, a CRITICAL reading (target mode FORCED) still performs one
actuator invocation. -/
theorem vent_invoked_when_already_in_target_mode :
    ventModeOf { emptyState with vent := [("zoneA", ⟨true, "FORCED", "CRITICAL"⟩)] } "zoneA"
        = "FORCED" ∧
    (processSensorReading false (allOk ⟨"CRITICAL", "high", true⟩)
        { emptyState with vent := [("zoneA", ⟨true, "FORCED", "CRITICAL"⟩)] }
        (mkBody "zoneA" 1 1 1 1)).2.ventInvocations = [("zoneA", "FORCED")] := by
  decide

/-- C6 amended: the ventilation actuator is invoked for every successfully
processed reading whose fused rank is at least WARNING, regardless of the
zone's current mode (an idempotent upsert, not a transition-guarded call),
with target mode FORCED for CRITICAL and AUTO for WARNING; it is never
invoked for a rank below WARNING. -/
theorem vent_invoked_iff_warning_or_above (be : Bool) (st : SystemState) (cid : String)
    (hcid : cid ≠ "") (m l c h : ℚ)
    (hm : 0 ≤ m) (hl : 0 ≤ l) (hc : 0 ≤ c) (hh : 0 ≤ h)
    (lv : RiskLevel) (conf : String) :
    (processSensorReading be (allOk ⟨lv.label, conf, true⟩) st (mkBody cid m l c h)).2.ventInvocations
      = st.ventInvocations ++ (if 4 ≤ lv.rank then
          [(cid, if lv = RiskLevel.CRITICAL then "FORCED" else "AUTO")] else []) := by
  rw [processSensorReading_valid be _ st cid hcid m l c h hm hl hc hh
      ⟨lv.label, conf, true⟩ rfl (label_ne_empty lv) rfl]
  cases lv <;> cases be <;>
    simp [runDecision, createAlert, triggerVentilation, allOk,
      RiskLevel.label, RiskLevel.rank,
      riskLevelOf_NORMAL, riskLevelOf_LOW_ANOMALY, riskLevelOf_UNUSUAL,
      riskLevelOf_ALERT, riskLevelOf_WARNING, riskLevelOf_CRITICAL]

theorem vent_invoked_iff_warning_or_above_witness :
    (processSensorReading false (allOk ⟨RiskLevel.WARNING.label, "high", true⟩) emptyState
        (mkBody "zoneA" 1 1 1 1)).2.ventInvocations
      = emptyState.ventInvocations ++ (if 4 ≤ RiskLevel.WARNING.rank then
          [("zoneA", if RiskLevel.WARNING = RiskLevel.CRITICAL then "FORCED" else "AUTO")]
        else []) :=
  vent_invoked_iff_warning_or_above false emptyState "zoneA" (by decide) 1 1 1 1
    (by decide) (by decide) (by decide) (by decide) RiskLevel.WARNING "high"

/-- C7 counterexample: the claim says every successfully processed reading
of rank at least WARNING emits exactly one audit event. With the audit
(blockchain) sink disabled — the default configuration — a CRITICAL
reading is processed successfully and zero audit events are emitted. -/
theorem critical_reading_no_audit_when_disabled :
    (processSensorReading false (allOk ⟨"CRITICAL", "high", true⟩) emptyState
        (mkBody "zoneA" 1 1 1 1)).1 = .ok ⟨true, true, some "FORCED", false⟩ ∧
    (processSensorReading false (allOk ⟨"CRITICAL", "high", true⟩) emptyState
        (mkBody "zoneA" 1 1 1 1)).2.auditEvents = [] := by
  decide

/-- C7 amended: when the blockchain audit sink is enabled, exactly one
audit event is emitted for every successfully processed reading of rank
at least WARNING; no audit event is ever emitted for a rank below
WARNING, whatever the configuration. -/
theorem audit_iff_enabled_and_warning_or_above (be bok : Bool) (st : SystemState)
    (cid : String) (hcid : cid ≠ "") (m l c h : ℚ)
    (hm : 0 ≤ m) (hl : 0 ≤ l) (hc : 0 ≤ c) (hh : 0 ≤ h)
    (lv : RiskLevel) (conf : String) :
    (processSensorReading be ⟨some ⟨lv.label, conf, true⟩, true, true, bok, true⟩ st
        (mkBody cid m l c h)).2.auditEvents
      = st.auditEvents ++ (if be = true ∧ 4 ≤ lv.rank then [(cid, lv.label)] else []) := by
  rw [processSensorReading_valid be _ st cid hcid m l c h hm hl hc hh
      ⟨lv.label, conf, true⟩ rfl (label_ne_empty lv) rfl]
  cases lv <;> cases be <;>
    simp [runDecision, createAlert, triggerVentilation,
      RiskLevel.label, RiskLevel.rank,
      riskLevelOf_NORMAL, riskLevelOf_LOW_ANOMALY, riskLevelOf_UNUSUAL,
      riskLevelOf_ALERT, riskLevelOf_WARNING, riskLevelOf_CRITICAL]

theorem audit_iff_enabled_and_warning_or_above_witness :
    (processSensorReading true ⟨some ⟨RiskLevel.WARNING.label, "high", true⟩, true, true,
        true, true⟩ emptyState (mkBody "zoneA" 1 1 1 1)).2.auditEvents
      = emptyState.auditEvents ++ (if true = true ∧ 4 ≤ RiskLevel.WARNING.rank then
          [("zoneA", RiskLevel.WARNING.label)] else []) :=
  audit_iff_enabled_and_warning_or_above true true emptyState "zoneA" (by decide) 1 1 1 1
    (by decide) (by decide) (by decide) (by decide) RiskLevel.WARNING "high"

/-- C8: the fused RiskLevel is the maximum of the two input ranks under
the order NORMAL(0) < LOW_ANOMALY(1) < UNUSUAL(2) < ALERT(3) <
WARNING(4) < CRITICAL(5); in particular it is never below either input. -/
theorem fusion_is_max (t a : RiskLevel) :
    (Fuse t (some a)).riskLevel.rank = max t.rank a.rank ∧
    t.rank ≤ (Fuse t (some a)).riskLevel.rank ∧
    a.rank ≤ (Fuse t (some a)).riskLevel.rank := by
  cases t <;> cases a <;> decide

/-- C9 counterexample: the claim says a failing alert-sink emission still
lets the ventilation transition commit and is surfaced as a
partial-failure flag. In the code a failing alert save throws before the
ventilation step: a CRITICAL reading with a failing alert sink yields a
500 response, no ventilation transition, and no partial-failure flags. -/
theorem alert_sink_failure_aborts_processing :
    processSensorReading true ⟨some ⟨"CRITICAL", "high", true⟩, false, true, true, true⟩
        emptyState (mkBody "zoneA" 1 1 1 1) = (.serverError, emptyState) := by
  decide

/-- C9 amended: the claimed behavior holds for the audit sink only — an
audit (blockchain) emission failure leaves the committed ventilation
transition intact and is surfaced as blockchainLogged = false in the
returned actions — while an alert-sink failure aborts processing with a
500 error before the ventilation transition, which therefore does not
commit, and no partial-failure structure is returned. -/
theorem audit_failure_partial_but_alert_failure_aborts (st : SystemState) (cid : String)
    (hcid : cid ≠ "") (m l c h : ℚ)
    (hm : 0 ≤ m) (hl : 0 ≤ l) (hc : 0 ≤ c) (hh : 0 ≤ h)
    (lv : RiskLevel) (conf : String) (h4 : 4 ≤ lv.rank) (be : Bool) :
    ((processSensorReading true ⟨some ⟨lv.label, conf, true⟩, true, true, false, true⟩ st
        (mkBody cid m l c h)).1
      = .ok ⟨true, true, some (if lv = RiskLevel.CRITICAL then "FORCED" else "AUTO"), false⟩ ∧
     List.lookup cid (processSensorReading true ⟨some ⟨lv.label, conf, true⟩, true, true,
        false, true⟩ st (mkBody cid m l c h)).2.vent
      = some ⟨true, if lv = RiskLevel.CRITICAL then "FORCED" else "AUTO", lv.label⟩) ∧
    processSensorReading be ⟨some ⟨lv.label, conf, true⟩, false, true, true, true⟩ st
        (mkBody cid m l c h) = (.serverError, st) := by
  rw [processSensorReading_valid true ⟨some ⟨lv.label, conf, true⟩, true, true, false, true⟩
      st cid hcid m l c h hm hl hc hh ⟨lv.label, conf, true⟩ rfl (label_ne_empty lv) rfl,
    processSensorReading_valid be ⟨some ⟨lv.label, conf, true⟩, false, true, true, true⟩
      st cid hcid m l c h hm hl hc hh ⟨lv.label, conf, true⟩ rfl (label_ne_empty lv) rfl]
  cases lv
  · exact absurd h4 (by decide)
  · exact absurd h4 (by decide)
  · exact absurd h4 (by decide)
  · exact absurd h4 (by decide)
  · simp [runDecision, createAlert, triggerVentilation, RiskLevel.label,
      riskLevelOf_WARNING, lookup_upsertVent]
  · simp [runDecision, createAlert, triggerVentilation, RiskLevel.label,
      riskLevelOf_CRITICAL, lookup_upsertVent]

theorem audit_failure_partial_witness :
    ((processSensorReading true ⟨some ⟨RiskLevel.CRITICAL.label, "high", true⟩, true, true,
        false, true⟩ emptyState (mkBody "zoneA" 1 1 1 1)).1
      = .ok ⟨true, true, some (if RiskLevel.CRITICAL = RiskLevel.CRITICAL then "FORCED"
          else "AUTO"), false⟩ ∧
     List.lookup "zoneA" (processSensorReading true ⟨some ⟨RiskLevel.CRITICAL.label, "high",
        true⟩, true, true, false, true⟩ emptyState (mkBody "zoneA" 1 1 1 1)).2.vent
      = some ⟨true, if RiskLevel.CRITICAL = RiskLevel.CRITICAL then "FORCED" else "AUTO",
          RiskLevel.CRITICAL.label⟩) ∧
    processSensorReading false ⟨some ⟨RiskLevel.CRITICAL.label, "high", true⟩, false, true,
        true, true⟩ emptyState (mkBody "zoneA" 1 1 1 1) = (.serverError, emptyState) :=
  audit_failure_partial_but_alert_failure_aborts emptyState "zoneA" (by decide) 1 1 1 1
    (by decide) (by decide) (by decide) (by decide) RiskLevel.CRITICAL "high" (by decide) false

/-- C10 counterexample: the claim says any supplied numeric limit is
clamped into the range 1..500. A supplied limit of 0 would clamp to 1,
but the code maps it to the default 50. -/
theorem limit_zero_not_clamped : ¬ parseLimit (some 0) = min (max (0 : ℤ) 1) 500 := by
  decide

/-- C10 amended: a missing or non-numeric limit defaults to 50, as does a
limit parsing to 0; any other numeric limit is clamped into 1..500; the
result is always within 1..500, so the readings and alerts listings
return at most 500 documents. -/
theorem limit_defaulted_or_clamped (n : ℤ) (hn : n ≠ 0) (v : Option ℤ)
    (docs : List StoredReading) (als : List AlertRecord) :
    parseLimit (some n) = min (max n 1) 500 ∧
    1 ≤ parseLimit v ∧ parseLimit v ≤ 500 ∧
    parseLimit none = 50 ∧ parseLimit (some 0) = 50 ∧
    (getReadingsQuery docs v).length ≤ 500 ∧ (getAlertsQuery als v).length ≤ 500 :=
  ⟨by simp [parseLimit, hn], (parseLimit_bounds v).1, (parseLimit_bounds v).2,
   by decide, by decide, getReadingsQuery_le docs v, getAlertsQuery_le als v⟩

theorem limit_defaulted_or_clamped_witness :
    parseLimit (some 700) = min (max (700 : ℤ) 1) 500 ∧
    1 ≤ parseLimit (some 700) ∧ parseLimit (some 700) ≤ 500 ∧
    parseLimit none = 50 ∧ parseLimit (some 0) = 50 ∧
    (getReadingsQuery [] (some 700)).length ≤ 500 ∧
    (getAlertsQuery [] (some 700)).length ≤ 500 :=
  limit_defaulted_or_clamped 700 (by decide) (some 700) [] []


end GasGuard
